import Mathlib

/-!
Shallow embedding of the `ehr-backend` Flask service (`src/ehr-backend/app.py`):
a read-only clinical dataset, a lab query engine, a medication-order intake
validator and an evidence search engine.  Python dicts are modelled as
association lists, JSON numbers as rationals, Python floats as rationals
extended with infinities and NaN, and the nondeterministic UUID as an explicit
string argument.  Each Flask handler becomes a pure Lean function from its
inputs to a response value carrying the HTTP status code and body.
-/

namespace EhrBackend

/-- Values of a decoded JSON body, as produced by Flask's request.get_json:
null, booleans, numbers (JSON numbers modelled exactly as rationals),
strings and objects (association lists).  Arrays are not modelled: no
request field relevant to this service may hold one. -/
inductive JVal where
  | jnull
  | jbool (b : Bool)
  | jnum (q : ℚ)
  | jstr (s : String)
  | jobj (fields : List (String × JVal))

/-- Python dict payloads, modelled as association lists with distinct keys. -/
abbrev Payload := List (String × JVal)

/-- Lookup of payload.get(key): the value at the first matching key. -/
def lookupKey : Payload → String → Option JVal
  | [], _ => none
  | (k, v) :: rest, key => if key = k then some v else lookupKey rest key

/-- Membership test mirroring Python's `key in payload`. -/
def containsKey (p : Payload) (k : String) : Bool :=
  p.any (fun kv => kv.1 == k)

/-- Truthiness of a JSON value under Python's bool(): null, False, 0, the
empty string and the empty object are falsy. -/
def JVal.truthy : JVal → Bool
  | .jnull => false
  | .jbool b => b
  | .jnum q => !(q == 0)
  | .jstr s => !(s == "")
  | .jobj f => !f.isEmpty

/-- Values of Python's float type as far as this service uses them:
a finite rational, the two infinities, or NaN. -/
inductive PyFloat where
  | fin (q : ℚ)
  | inf
  | ninf
  | nan
  deriving DecidableEq

/-- Comparison `d <= r` between a finite float d and a float r, as Python
evaluates it: anything is at most +inf, nothing is at most -inf, and every
comparison with NaN is false. -/
def PyFloat.geF : PyFloat → ℚ → Bool
  | .fin r, d => decide (d ≤ r)
  | .inf, _ => true
  | .ninf, _ => false
  | .nan, _ => false

/-- Whitespace stripping of str.strip on a character list: leading and
trailing whitespace characters are removed.  (Python also strips some
non-ASCII whitespace; only ASCII whitespace can reach this service.) -/
def pyStrip (cs : List Char) : List Char :=
  ((cs.dropWhile Char.isWhitespace).reverse.dropWhile Char.isWhitespace).reverse

/-- Lowercasing of str.lower on a character list.  (Char.toLower lowers the
ASCII range, which covers every test name and literal of this service.) -/
def pyLower (cs : List Char) : List Char := cs.map Char.toLower

/-- Comma splitting of str.split on a character list, keeping empty
pieces, as Python does. -/
def pySplitComma : List Char → List (List Char)
  | [] => [[]]
  | c :: rest =>
    if c = ',' then [] :: pySplitComma rest
    else
      match pySplitComma rest with
      | [] => [[c]]
      | h :: t => (c :: h) :: t

/-- Value of a list of decimal digit characters read in base 10. -/
def digitsToNat (cs : List Char) : ℕ :=
  cs.foldl (fun acc c => 10 * acc + (c.toNat - 48)) 0

/-- Leading-sign splitter for numeric literals: returns whether the sign is
negative together with the remaining characters. -/
def parseSign : List Char → Bool × List Char
  | '-' :: r => (true, r)
  | '+' :: r => (false, r)
  | r => (false, r)

/-- Splitting of a numeric literal at its decimal point: returns the integer
and fractional digit lists, or none if more than one point occurs. -/
def splitDot : List Char → Option (List Char × List Char)
  | [] => some ([], [])
  | c :: r =>
    if c = '.' then
      if r.contains '.' then none else some ([], r)
    else
      match splitDot r with
      | some (a, b) => some (c :: a, b)
      | none => none

/-- Model of Python's int(s) on strings: surrounding whitespace is ignored,
an optional sign is followed by at least one decimal digit; anything else
raises ValueError, modelled as none.  (Underscore separators and non-decimal
bases are not modelled; no caller of this service exercises them.) -/
def parsePyInt (s : String) : Option ℤ :=
  let sr := parseSign (pyStrip s.data)
  if !sr.2.isEmpty && sr.2.all Char.isDigit then
    some (if sr.1 then -(digitsToNat sr.2 : ℤ) else (digitsToNat sr.2 : ℤ))
  else none

/-- Model of Python's float(s) on strings: surrounding whitespace and case
are ignored, an optional sign is followed by inf, infinity, nan, or decimal
digits with at most one decimal point and at least one digit; anything else
raises ValueError, modelled as none.  Parsed values are exact rationals:
the spec and this service treat radii as real numbers, so the binary
rounding of the float type is not modelled.  (Exponent suffixes and
underscore separators are not modelled; no caller exercises them.) -/
def parsePyFloat (s : String) : Option PyFloat :=
  let sr := parseSign (pyLower (pyStrip s.data))
  if sr.2 = "inf".data then some (if sr.1 then .ninf else .inf)
  else if sr.2 = "infinity".data then some (if sr.1 then .ninf else .inf)
  else if sr.2 = "nan".data then some .nan
  else
    match splitDot sr.2 with
    | none => none
    | some (ip, fp) =>
      if !(ip ++ fp).isEmpty && (ip ++ fp).all Char.isDigit then
        let mag : ℚ :=
          mkRat (digitsToNat ip * 10 ^ fp.length + digitsToNat fp) (10 ^ fp.length)
        some (.fin (if sr.1 then -mag else mag))
      else none

/-- Conversion float(v) applied to a decoded JSON value: numbers convert to
themselves, booleans to 0 or 1, strings are parsed, and null or an object
raises TypeError, modelled as none. -/
def pyFloatOf : JVal → Option PyFloat
  | .jnum q => some (.fin q)
  | .jbool b => some (.fin (if b then 1 else 0))
  | .jstr s => parsePyFloat s
  | .jnull => none
  | .jobj _ => none

/-- Demographics block of a patient summary. -/
structure Demographics where
  name : String
  age : ℕ
  gender : String
  mrn : String
  deriving DecidableEq

/-- Current vitals snapshot of a patient summary. -/
structure Vitals where
  systolic : ℕ
  diastolic : ℕ
  heart_rate : ℕ
  weight_kg : ℚ
  updated_at : String
  deriving DecidableEq

/-- Patient summary record of the clinical dataset. -/
structure PatientSummary where
  demographics : Demographics
  problems : List String
  medications : List String
  vitals : Vitals
  last_a1c : ℚ
  last_egfr : ℚ
  deriving DecidableEq

/-- Single lab observation: test name, numeric value, unit and the ISO 8601
collection timestamp string produced by _iso (second precision). -/
structure LabObservation where
  name : String
  value : ℚ
  unit : String
  collected_at : String
  deriving DecidableEq

/-- Summary record for patient 12345 from _PATIENT_SUMMARIES.  Decimal
literals of the source appear as exact rationals, 82.5 as mkRat 825 10,
7.4 as mkRat 74 10 and 54.0 as 54. -/
def summary12345 : PatientSummary where
  demographics := ⟨"Jordan Matthews", 62, "female", "12345"⟩
  problems := ["Type 2 diabetes mellitus", "CKD stage 3", "Hypertension"]
  medications := ["Metformin 1000 mg BID", "Lisinopril 20 mg daily"]
  vitals := ⟨128, 78, 72, mkRat 825 10, "2024-09-12T09:45:00"⟩
  last_a1c := mkRat 74 10
  last_egfr := 54

/-- Summary record for patient 12873 from _PATIENT_SUMMARIES. -/
def summary12873 : PatientSummary where
  demographics := ⟨"Avery Patel", 58, "female", "12873"⟩
  problems := ["Type 2 diabetes mellitus", "Chronic kidney disease stage 3",
    "Hypertension"]
  medications := ["Metformin 1000 mg BID", "Losartan 50 mg daily"]
  vitals := ⟨132, 82, 76, mkRat 798 10, "2025-09-12T09:15:00"⟩
  last_a1c := mkRat 82 10
  last_egfr := 44

/-- Summary table _PATIENT_SUMMARIES of the clinical dataset. -/
def _PATIENT_SUMMARIES : List (String × PatientSummary) :=
  [("12345", summary12345), ("12873", summary12873)]

/-- Lab history of patient 12345 from _PATIENT_LABS, in source order, with
decimal values as exact rationals (7.4 as mkRat 74 10, 54.0 as 54). -/
def labs12345 : List LabObservation :=
  [⟨"HbA1c", mkRat 74 10, "%", "2024-09-10T08:30:00"⟩,
   ⟨"HbA1c", mkRat 78 10, "%", "2024-06-05T08:30:00"⟩,
   ⟨"eGFR", 54, "mL/min/1.73m2", "2024-09-10T08:35:00"⟩,
   ⟨"eGFR", 58, "mL/min/1.73m2", "2024-03-15T08:35:00"⟩,
   ⟨"LDL", 82, "mg/dL", "2024-09-01T08:00:00"⟩]

/-- Lab history of patient 12873 from _PATIENT_LABS, in source order. -/
def labs12873 : List LabObservation :=
  [⟨"HbA1c", mkRat 82 10, "%", "2025-09-05T08:00:00"⟩,
   ⟨"HbA1c", mkRat 86 10, "%", "2025-06-02T08:10:00"⟩,
   ⟨"HbA1c", mkRat 89 10, "%", "2025-03-03T08:05:00"⟩,
   ⟨"eGFR", 44, "mL/min/1.73m2", "2025-09-12T07:55:00"⟩,
   ⟨"eGFR", 46, "mL/min/1.73m2", "2025-06-09T07:50:00"⟩,
   ⟨"eGFR", 48, "mL/min/1.73m2", "2025-03-10T07:45:00"⟩]

/-- Lab table _PATIENT_LABS of the clinical dataset. -/
def _PATIENT_LABS : List (String × List LabObservation) :=
  [("12345", labs12345), ("12873", labs12873)]

/-- Lookup of dict.get(key) on a dataset table. -/
def lookupDB {α : Type} : List (String × α) → String → Option α
  | [], _ => none
  | (k, v) :: rest, key => if key = k then some v else lookupDB rest key

/-- Descending comparison used to sort labs: a comes before b when b's
collection timestamp is at most a's, comparing the ISO strings by code
points as Python compares strings (Python sorted with reverse=True on the
collected_at key). -/
def labBefore (a b : LabObservation) : Prop :=
  b.collected_at.data ≤ a.collected_at.data

instance labBefore.instDecidableRel : DecidableRel labBefore :=
  fun a b => (inferInstance : Decidable (b.collected_at.data ≤ a.collected_at.data))

instance labBefore.instIsTotal : IsTotal LabObservation labBefore :=
  ⟨fun a b => le_total b.collected_at.data a.collected_at.data⟩

instance labBefore.instIsTrans : IsTrans LabObservation labBefore :=
  ⟨fun _ _ _ h1 h2 => le_trans h2 h1⟩

/-- Sorting of lab observations most-recent-first, mirroring
sorted(filtered, key=collected_at, reverse=True).  Python's sorted is the
stable sort for this comparison, and so is insertionSort; a stable sort's
output is unique, so the two agree on every input. -/
def sortLabsDesc (labs : List LabObservation) : List LabObservation :=
  labs.insertionSort labBefore

/-- Parsing of the names query parameter into its comparison set: split on
commas, strip whitespace, drop empty entries, lowercase. -/
def filterEntries (names : String) : List (List Char) :=
  (((pySplitComma names.data).map pyStrip).filter (fun e => !e.isEmpty)).map pyLower

/-- Name filtering step of the labs handler: with no names parameter, or a
falsy (empty) one, all observations are kept; otherwise an observation is
kept when its lowercased test name is among the filter entries. -/
def applyNames (names : Option String) (labs : List LabObservation) :
    List LabObservation :=
  match names with
  | none => labs
  | some s =>
    if s = "" then labs
    else labs.filter (fun lab => (filterEntries s).contains (pyLower lab.name.data))

/-- Predicate form of the name-filtering step: the observations applyNames
keeps are exactly those satisfying keepLab. -/
def keepLab (names : Option String) (lab : LabObservation) : Bool :=
  match names with
  | none => true
  | some s =>
    if s = "" then true
    else (filterEntries s).contains (pyLower lab.name.data)

/-- Responses of the labs endpoint: an error with status code and detail
string, or 200 with the patient id and the lab list. -/
inductive LabsResponse where
  | err (status : ℕ) (detail : String)
  | ok (patient_id : String) (labs : List LabObservation)
  deriving DecidableEq

/-- Lab query engine get_patient_labs, with the dataset table passed
explicitly and last_n already converted by Flask's type=int (none when
absent or unconvertible).  Unknown patient or empty history gives 404;
last_n below 1 gives 422; otherwise the history is name-filtered, sorted
most-recent-first and truncated to last_n entries when present. -/
def get_patient_labs (db : List (String × List LabObservation))
    (patient_id : String) (names : Option String) (last_n : Option ℤ) :
    LabsResponse :=
  let lab_history := (lookupDB db patient_id).getD []
  if lab_history.isEmpty then .err 404 "Patient not found or no lab history"
  else
    let filtered := sortLabsDesc (applyNames names lab_history)
    match last_n with
    | none => .ok patient_id filtered
    | some n =>
      if n < 1 then .err 422 "last_n must be greater than zero"
      else .ok patient_id (filtered.take n.toNat)

/-- Labs route as reached over HTTP: the raw last_n query string goes
through Flask's type=int conversion, which yields none for an absent or
unconvertible value. -/
def get_patient_labs_raw (db : List (String × List LabObservation))
    (patient_id : String) (names : Option String)
    (last_n_raw : Option String) : LabsResponse :=
  get_patient_labs db patient_id names (last_n_raw.bind parsePyInt)

/-- Responses of the summary endpoint. -/
inductive SummaryResponse where
  | err (status : ℕ) (detail : String)
  | ok (summary : PatientSummary)
  deriving DecidableEq

/-- Summary accessor get_patient_summary over an explicit dataset table. -/
def get_patient_summary (db : List (String × PatientSummary))
    (patient_id : String) : SummaryResponse :=
  match lookupDB db patient_id with
  | none => .err 404 "Patient not found"
  | some summary => .ok summary

/-- Required keys of a medication order payload, in source literal order. -/
def required_fields : List String :=
  ["patient_id", "medication", "dose", "route", "frequency"]

/-- Ascending code-point comparison on strings, as Python's sorted uses. -/
def strBefore (a b : String) : Prop := a.data ≤ b.data

instance strBefore.instDecidableRel : DecidableRel strBefore :=
  fun a b => (inferInstance : Decidable (a.data ≤ b.data))

instance strBefore.instIsTotal : IsTotal String strBefore :=
  ⟨fun a b => le_total a.data b.data⟩

instance strBefore.instIsTrans : IsTrans String strBefore :=
  ⟨fun _ _ _ h1 h2 => le_trans h1 h2⟩

/-- Alphabetical sort of field names, mirroring Python's sorted(). -/
def sortStrings (l : List String) : List String := l.insertionSort strBefore

/-- Missing-field computation of the order validator: the required fields
absent from the payload, sorted alphabetically. -/
def missingFields (payload : Payload) : List String :=
  sortStrings (required_fields.filter (fun f => !containsKey payload f))

/-- Responses of the medication order endpoint: 400 with a detail string, or
201 with the generated order id and status marker. -/
inductive OrderResponse where
  | err (status : ℕ) (detail : String)
  | ok (status : ℕ) (order_id : String) (order_status : String)
  deriving DecidableEq

/-- Order intake validator create_medication_order; the fresh uuid4 value is
passed in explicitly.  A payload missing any required key gives 400 listing
every missing key; otherwise 201 with a draft order id. -/
def create_medication_order (uuid : String) (payload : Payload) :
    OrderResponse :=
  let missing := missingFields payload
  if missing.isEmpty then
    .ok 201 ("draft-" ++ uuid) "draft created"
  else
    .err 400 ("Missing required fields: " ++ String.intercalate ", " missing)

/-- Trial candidate record of the fixed evidence catalog. -/
structure TrialCandidate where
  id : String
  name : String
  distance_km : ℚ
  eligibility_summary : String
  deriving DecidableEq

/-- Fixed trial catalog all_trials, in source order; the 12.4 km distance
appears as the exact rational mkRat 124 10 and 48.0 as 48. -/
def all_trials : List TrialCandidate :=
  [⟨"NCT05566789", "Renal Outcomes in Diabetes", mkRat 124 10,
    "Adults 40-75 with type 2 diabetes and eGFR 45-60"⟩,
   ⟨"NCT08899881", "Cardiometabolic Risk Reduction Study", 48,
    "Type 2 diabetes with uncontrolled A1c > 7 despite therapy"⟩]

/-- Static guideline reference list of the evidence search engine. -/
def guideline_ids : List String := ["ADA-2024-DM2"]

/-- Static registered-trial reference list of the evidence search engine. -/
def rct_ids : List String := ["NCT01234567", "NCT07654321"]

/-- Extraction of geo.radius_km from an evidence payload, as performed by
the try block: payload.get(geo) with falsy values replaced by the empty
dict, then subscripting and float conversion; any TypeError, KeyError or
ValueError on the way is modelled as none.  A truthy non-object geo value
makes the subscript raise TypeError, also none. -/
def radiusOf (payload : Payload) : Option PyFloat :=
  match lookupKey payload "geo" with
  | some (.jobj fields) =>
    match lookupKey fields "radius_km" with
    | some v => pyFloatOf v
    | none => none
  | _ => none

/-- Responses of the evidence search endpoint: 400 with a detail string, or
200 with the guideline, registered-trial and nearby-trial lists. -/
inductive EvidenceResponse where
  | err (status : ℕ) (detail : String)
  | ok (guidelines : List String) (rcts : List String)
      (nearby_trials : List TrialCandidate)
  deriving DecidableEq

/-- Evidence search engine search_evidence: a failed radius extraction gives
400; otherwise the catalog is filtered to trials within the radius, in
catalog order, capped at 2 entries. -/
def search_evidence (payload : Payload) : EvidenceResponse :=
  match radiusOf payload with
  | none => .err 400 "Invalid or missing geo.radius_km"
  | some radius_km =>
    .ok guideline_ids rct_ids
      ((all_trials.filter (fun t => radius_km.geF t.distance_km)).take 2)

/-- Result of request.get_json(silent=True) on a POST body: malformed JSON
yields None (modelled as the malformed constructor) and a JSON object body
yields its payload.  The subsequent or-with-empty-dict replaces None by the
empty payload. -/
inductive BodyParse where
  | malformed
  | obj (payload : Payload)

/-- Payload a handler works with: request.get_json(silent=True) or the
empty dict. -/
def payloadOfBody : BodyParse → Payload
  | .malformed => []
  | .obj p => p

/-- Medication order route including the body-parsing step. -/
def create_medication_order_route (uuid : String) (body : BodyParse) :
    OrderResponse :=
  create_medication_order uuid (payloadOfBody body)

/-- Evidence search route including the body-parsing step. -/
def search_evidence_route (body : BodyParse) : EvidenceResponse :=
  search_evidence (payloadOfBody body)

/-- Process state of the service: the two dataset tables populated at
startup.  Handlers receive it and return it, so that the absence of writes
is an explicit theorem rather than a convention. -/
structure AppState where
  summaries : List (String × PatientSummary)
  labs : List (String × List LabObservation)

/-- Dataset contents at process start. -/
def initialState : AppState := ⟨_PATIENT_SUMMARIES, _PATIENT_LABS⟩

/-- Inbound requests of the five routes; generated uuids and parsed bodies
appear as explicit inputs. -/
inductive Request where
  | getSummary (patient_id : String)
  | getLabs (patient_id : String) (names : Option String)
      (last_n_raw : Option String)
  | postOrder (uuid : String) (body : BodyParse)
  | postEvidence (body : BodyParse)
  | health

/-- Responses of the five routes. -/
inductive Response where
  | summary (resp : SummaryResponse)
  | labs (resp : LabsResponse)
  | order (resp : OrderResponse)
  | evidence (resp : EvidenceResponse)
  | healthOk (status : String)

/-- Request dispatcher: runs the matching handler against the current
dataset state and returns the response together with the state the process
keeps afterwards.  Every handler of the source only reads the tables, so
each branch hands the state back unchanged. -/
def handle (s : AppState) : Request → Response × AppState
  | .getSummary pid => (.summary (get_patient_summary s.summaries pid), s)
  | .getLabs pid names lastNRaw =>
    (.labs (get_patient_labs_raw s.labs pid names lastNRaw), s)
  | .postOrder uuid body =>
    (.order (create_medication_order_route uuid body), s)
  | .postEvidence body => (.evidence (search_evidence_route body), s)
  | .health => (.healthOk "ok", s)

/-- Evidence payload with a negative radius, {condition, geo: {radius_km: -5}}. -/
def negRadiusPayload : Payload :=
  [("condition", .jstr "type 2 diabetes"),
   ("geo", .jobj [("radius_km", .jnum (-5))])]

/-- Evidence payload without a geo object. -/
def noGeoPayload : Payload := [("condition", .jstr "type 2 diabetes")]

/-- Evidence payload with radius_km = 13. -/
def radius13Payload : Payload :=
  [("condition", .jstr "type 2 diabetes"), ("comorbidity", .jstr "CKD stage 3"),
   ("geo", .jobj [("radius_km", .jnum 13)])]

/-- Order payload carrying all five required keys with non-empty values. -/
def completeOrderPayload : Payload :=
  [("patient_id", .jstr "12345"), ("medication", .jstr "Metformin"),
   ("dose", .jstr "1000 mg"), ("route", .jstr "oral"), ("frequency", .jstr "BID")]

/-- Order payload carrying all five required keys, each bound to the empty
string. -/
def emptyValuesPayload : Payload :=
  [("patient_id", .jstr ""), ("medication", .jstr ""), ("dose", .jstr ""),
   ("route", .jstr ""), ("frequency", .jstr "")]

/-- Order payload missing the dose and route keys. -/
def missingDoseRoutePayload : Payload :=
  [("patient_id", .jstr "12345"), ("medication", .jstr "Metformin"),
   ("frequency", .jstr "BID")]

/-- The lab sort only permutes its input. -/
theorem sortLabsDesc_perm (l : List LabObservation) : (sortLabsDesc l).Perm l :=
  List.perm_insertionSort labBefore l

/-- The lab sort output is ordered by descending collection timestamp. -/
theorem sortLabsDesc_pairwise (l : List LabObservation) :
    (sortLabsDesc l).Pairwise labBefore :=
  List.sorted_insertionSort labBefore l

/-- The field-name sort only permutes its input. -/
theorem sortStrings_perm (l : List String) : (sortStrings l).Perm l :=
  List.perm_insertionSort strBefore l

/-- The field-name sort output is in ascending order. -/
theorem sortStrings_pairwise (l : List String) :
    (sortStrings l).Pairwise strBefore :=
  List.sorted_insertionSort strBefore l

/-- The name-filtering step keeps exactly the observations satisfying
keepLab. -/
theorem applyNames_eq_filter (ns : Option String) (l : List LabObservation) :
    applyNames ns l = l.filter (keepLab ns) := by
  cases ns with
  | none => exact (List.filter_eq_self.2 (fun a _ => rfl)).symm
  | some s =>
    by_cases hs : s = ""
    · subst hs
      simp only [applyNames, if_pos rfl]
      exact (List.filter_eq_self.2 (fun a _ => rfl)).symm
    · simp only [applyNames, if_neg hs]
      apply List.filter_congr
      intro a _
      simp [keepLab, hs]

/-- Labs handler on a known patient without last_n: 200 with the filtered
history sorted most-recent-first. -/
theorem get_patient_labs_found_none (db : List (String × List LabObservation))
    (pid : String) (history : List LabObservation)
    (h : lookupDB db pid = some history) (hne : history ≠ [])
    (ns : Option String) :
    get_patient_labs db pid ns none =
      .ok pid (sortLabsDesc (applyNames ns history)) := by
  simp only [get_patient_labs, h, Option.getD_some]
  rw [if_neg (fun hc => hne (List.isEmpty_iff.1 hc))]

/-- Labs handler on a known patient with last_n present: 422 below 1,
otherwise 200 with the sorted filtered history truncated. -/
theorem get_patient_labs_found_some (db : List (String × List LabObservation))
    (pid : String) (history : List LabObservation)
    (h : lookupDB db pid = some history) (hne : history ≠ [])
    (ns : Option String) (n : ℤ) :
    get_patient_labs db pid ns (some n) =
      if n < 1 then .err 422 "last_n must be greater than zero"
      else .ok pid ((sortLabsDesc (applyNames ns history)).take n.toNat) := by
  simp only [get_patient_labs, h, Option.getD_some]
  rw [if_neg (fun hc => hne (List.isEmpty_iff.1 hc))]

/-- The missing list is empty exactly when every required key is present. -/
theorem missingFields_nil_iff (p : Payload) :
    missingFields p = [] ↔ ∀ f ∈ required_fields, containsKey p f = true := by
  unfold missingFields
  constructor
  · intro h f hf
    have hp := sortStrings_perm (required_fields.filter (fun f => !containsKey p f))
    rw [h] at hp
    have hnil := hp.symm.eq_nil
    have := List.filter_eq_nil_iff.1 hnil f hf
    simpa using this
  · intro h
    have hnil : required_fields.filter (fun f => !containsKey p f) = [] :=
      List.filter_eq_nil_iff.2 (fun f hf => by simp [h f hf])
    rw [hnil]
    rfl

/-- C1 (amended): search_evidence fails with 400 and detail
"Invalid or missing geo.radius_km" exactly when geo.radius_km fails the
float conversion; whenever the conversion yields any float value, finite or
not, of any sign, the request succeeds. -/
theorem evidence_radius_parse_gate (p : Payload) :
    (radiusOf p = none →
      search_evidence p = .err 400 "Invalid or missing geo.radius_km") ∧
    (∀ r, radiusOf p = some r →
      search_evidence p =
        .ok guideline_ids rct_ids
          ((all_trials.filter (fun t => r.geF t.distance_km)).take 2)) ∧
    (search_evidence p = .err 400 "Invalid or missing geo.radius_km" →
      radiusOf p = none) := by
  refine ⟨?_, ?_, ?_⟩
  · intro h
    unfold search_evidence
    rw [h]
  · intro r h
    unfold search_evidence
    rw [h]
  · intro h
    cases hr : radiusOf p with
    | none => rfl
    | some r =>
      unfold search_evidence at h
      rw [hr] at h
      exact absurd h (by simp)

/-- C1 witness: a payload without geo fails the conversion and gets the
400 response. -/
theorem evidence_radius_parse_gate_witness :
    search_evidence noGeoPayload = .err 400 "Invalid or missing geo.radius_km" :=
  (evidence_radius_parse_gate noGeoPayload).1 (by rfl)

/-- C1 counterexample: radius_km = -5 converts to the negative float -5,
yet search_evidence succeeds with 200 and an empty trial list instead of
failing with InvalidArgument as claimed for negative radii. -/
theorem evidence_negative_radius_accepted :
    radiusOf negRadiusPayload = some (.fin (-5)) ∧
    (-5 : ℚ) < 0 ∧
    search_evidence negRadiusPayload ≠ .err 400 "Invalid or missing geo.radius_km" ∧
    search_evidence negRadiusPayload = .ok guideline_ids rct_ids [] := by
  exact ⟨by rfl, by decide, by decide, by decide⟩

/-- C2 (amended): create_medication_order succeeds with 201 and status
"draft created" exactly when all five required keys are present in the
payload; the bound values are never inspected, so empty-equivalent values
are accepted. -/
theorem order_success_iff_keys_present (uuid : String) (p : Payload) :
    create_medication_order uuid p = .ok 201 ("draft-" ++ uuid) "draft created" ↔
      ∀ f ∈ required_fields, containsKey p f = true := by
  rw [← missingFields_nil_iff]
  unfold create_medication_order
  by_cases h : missingFields p = []
  · simp [h]
  · simp [h, List.isEmpty_iff]

/-- C2 witness: a complete payload with non-empty values is accepted. -/
theorem order_success_iff_keys_present_witness :
    create_medication_order "3f2c" completeOrderPayload =
      .ok 201 "draft-3f2c" "draft created" :=
  (order_success_iff_keys_present "3f2c" completeOrderPayload).mpr (by decide)

/-- C2 counterexample: a payload in which every required field is present
but bound to the empty string is accepted with 201, contradicting the
claim that empty-equivalent fields are rejected. -/
theorem order_accepts_empty_values :
    (lookupKey emptyValuesPayload "patient_id").map JVal.truthy = some false ∧
    (lookupKey emptyValuesPayload "medication").map JVal.truthy = some false ∧
    (lookupKey emptyValuesPayload "dose").map JVal.truthy = some false ∧
    (lookupKey emptyValuesPayload "route").map JVal.truthy = some false ∧
    (lookupKey emptyValuesPayload "frequency").map JVal.truthy = some false ∧
    create_medication_order "3f2c" emptyValuesPayload =
      .ok 201 "draft-3f2c" "draft created" := by
  exact ⟨rfl, rfl, rfl, rfl, rfl, by decide⟩

/-- C8: an unparseable request body is replaced by the empty payload for
both POST handlers, so create_medication_order reports all five required
fields missing instead of a parse error, and search_evidence reports the
missing radius. -/
theorem malformed_body_as_empty_payload (uuid : String) :
    create_medication_order_route uuid .malformed =
      create_medication_order uuid [] ∧
    create_medication_order_route uuid .malformed =
      .err 400 "Missing required fields: dose, frequency, medication, patient_id, route" ∧
    search_evidence_route .malformed = search_evidence [] ∧
    search_evidence_route .malformed =
      .err 400 "Invalid or missing geo.radius_km" :=
  ⟨rfl, rfl, rfl, rfl⟩

/-- C9: no request mutates the dataset: the state every handler returns is
the state it received. -/
theorem requests_preserve_dataset (s : AppState) (req : Request) :
    (handle s req).2 = s := by
  cases req <;> rfl

/-- C3: for a known patient, the returned labs are exactly the history
entries whose test name matches the filter (case-insensitively, an absent
or empty filter keeping all), and a filter that keeps every entry of the
history yields the same response as no filter at all. -/
theorem labs_name_filter_spec (pid : String) (history : List LabObservation)
    (h : lookupDB _PATIENT_LABS pid = some history) (hne : history ≠ [])
    (ns : Option String) :
    (∃ labs, get_patient_labs _PATIENT_LABS pid ns none = .ok pid labs ∧
      (∀ lab ∈ labs, lab ∈ history ∧ keepLab ns lab = true) ∧
      (∀ lab ∈ history, keepLab ns lab = true → lab ∈ labs)) ∧
    ((∀ lab ∈ history, keepLab ns lab = true) →
      get_patient_labs _PATIENT_LABS pid ns none =
        get_patient_labs _PATIENT_LABS pid none none) := by
  have hmain := get_patient_labs_found_none _PATIENT_LABS pid history h hne ns
  constructor
  · refine ⟨_, hmain, ?_, ?_⟩
    · intro lab hl
      have h1 : lab ∈ applyNames ns history := (sortLabsDesc_perm _).mem_iff.1 hl
      rw [applyNames_eq_filter] at h1
      have h2 := List.mem_filter.1 h1
      exact ⟨h2.1, h2.2⟩
    · intro lab hl hk
      apply (sortLabsDesc_perm _).mem_iff.2
      rw [applyNames_eq_filter]
      exact List.mem_filter.2 ⟨hl, hk⟩
  · intro hall
    have hfix : applyNames ns history = history := by
      rw [applyNames_eq_filter]
      exact List.filter_eq_self.2 hall
    have hnone := get_patient_labs_found_none _PATIENT_LABS pid history h hne none
    rw [hmain, hnone, hfix]
    rfl

/-- C3 witness: patient 12345 filtered by the full set of test names of
its history behaves as the unfiltered query. -/
theorem labs_name_filter_spec_witness :
    (∃ labs, get_patient_labs _PATIENT_LABS "12345" (some "HbA1c,eGFR,LDL") none =
        .ok "12345" labs ∧
      (∀ lab ∈ labs, lab ∈ labs12345 ∧
        keepLab (some "HbA1c,eGFR,LDL") lab = true) ∧
      (∀ lab ∈ labs12345, keepLab (some "HbA1c,eGFR,LDL") lab = true →
        lab ∈ labs)) ∧
    ((∀ lab ∈ labs12345, keepLab (some "HbA1c,eGFR,LDL") lab = true) →
      get_patient_labs _PATIENT_LABS "12345" (some "HbA1c,eGFR,LDL") none =
        get_patient_labs _PATIENT_LABS "12345" none none) :=
  labs_name_filter_spec "12345" labs12345 (by rfl) (by decide)
    (some "HbA1c,eGFR,LDL")

/-- C4: for a known patient, a present last_n below 1 yields 422 with the
documented detail, and a present last_n of at least 1 truncates the
no-truncation result to its first last_n entries, of length
min(last_n, filtered length). -/
theorem labs_last_n_spec (pid : String) (history : List LabObservation)
    (h : lookupDB _PATIENT_LABS pid = some history) (hne : history ≠ [])
    (ns : Option String) (n : ℤ) :
    (n < 1 → get_patient_labs _PATIENT_LABS pid ns (some n) =
      .err 422 "last_n must be greater than zero") ∧
    (1 ≤ n → ∀ full,
      get_patient_labs _PATIENT_LABS pid ns none = .ok pid full →
      get_patient_labs _PATIENT_LABS pid ns (some n) =
        .ok pid (full.take n.toNat) ∧
      (full.take n.toNat).length = min n.toNat full.length) := by
  have hsome := get_patient_labs_found_some _PATIENT_LABS pid history h hne ns n
  have hnone := get_patient_labs_found_none _PATIENT_LABS pid history h hne ns
  constructor
  · intro hlt
    rw [hsome, if_pos hlt]
  · intro hge full hfull
    rw [hnone] at hfull
    have hf : full = sortLabsDesc (applyNames ns history) := by
      injection hfull with h1 h2
      exact h2.symm
    subst hf
    refine ⟨?_, ?_⟩
    · rw [hsome, if_neg (by omega : ¬ n < 1)]
    · exact List.length_take _ _

/-- C4 witness: last_n = 2 for patient 12345 truncates the unfiltered
sorted history to its first two entries. -/
theorem labs_last_n_spec_witness :
    get_patient_labs _PATIENT_LABS "12345" none (some 2) =
      .ok "12345" ((sortLabsDesc (applyNames none labs12345)).take 2) ∧
    ((sortLabsDesc (applyNames none labs12345)).take 2).length =
      min 2 (sortLabsDesc (applyNames none labs12345)).length :=
  (labs_last_n_spec "12345" labs12345 (by rfl) (by decide) none 2).2
    (by decide) (sortLabsDesc (applyNames none labs12345)) (by rfl)

/-- C5: for every radius that converts to a finite float, the nearby
trials are exactly the catalog entries within the radius, kept in catalog
order and capped at 2; radius 13 returns precisely the one catalog trial
at 12.4 km. -/
theorem evidence_nearby_trials_spec :
    (∀ (p : Payload) (r : ℚ), radiusOf p = some (.fin r) →
      ∃ ts, search_evidence p = .ok guideline_ids rct_ids ts ∧
        ts = (all_trials.filter (fun t => decide (t.distance_km ≤ r))).take 2 ∧
        ts.length ≤ 2 ∧
        (∀ t ∈ ts, t ∈ all_trials ∧ t.distance_km ≤ r) ∧
        (∀ t ∈ all_trials, t.distance_km ≤ r → t ∈ ts)) ∧
    search_evidence radius13Payload =
      .ok guideline_ids rct_ids
        [⟨"NCT05566789", "Renal Outcomes in Diabetes", mkRat 124 10,
          "Adults 40-75 with type 2 diabetes and eGFR 45-60"⟩] := by
  constructor
  · intro p r h
    have hs : search_evidence p = .ok guideline_ids rct_ids
        ((all_trials.filter (fun t => PyFloat.geF (.fin r) t.distance_km)).take 2) := by
      unfold search_evidence
      rw [h]
    refine ⟨_, hs, rfl, List.length_take_le _ _, ?_, ?_⟩
    · intro t ht
      have h1 := List.take_subset _ _ ht
      have h2 := List.mem_filter.1 h1
      exact ⟨h2.1, by simpa [PyFloat.geF] using h2.2⟩
    · intro t ht hle
      have hlen : (all_trials.filter
          (fun t => PyFloat.geF (.fin r) t.distance_km)).length ≤ 2 :=
        le_trans (List.length_filter_le _ _) (by decide)
      rw [List.take_of_length_le hlen]
      exact List.mem_filter.2 ⟨ht, by simpa [PyFloat.geF] using hle⟩
  · decide

/-- C5 witness: the radius-13 payload instantiates the general trial
filtering property. -/
theorem evidence_nearby_trials_spec_witness :
    ∃ ts, search_evidence radius13Payload = .ok guideline_ids rct_ids ts ∧
      ts = (all_trials.filter
        (fun t => decide (t.distance_km ≤ (13 : ℚ)))).take 2 ∧
      ts.length ≤ 2 ∧
      (∀ t ∈ ts, t ∈ all_trials ∧ t.distance_km ≤ (13 : ℚ)) ∧
      (∀ t ∈ all_trials, t.distance_km ≤ (13 : ℚ) → t ∈ ts) :=
  evidence_nearby_trials_spec.1 radius13Payload 13 (by rfl)

/-- C6: every successful labs response is ordered by descending collection
timestamp: each returned observation's timestamp is at least that of every
observation after it. -/
theorem labs_sorted_most_recent_first (pid : String) (ns : Option String)
    (ln : Option ℤ) (pid2 : String) (labs : List LabObservation)
    (h : get_patient_labs _PATIENT_LABS pid ns ln = .ok pid2 labs) :
    labs.Pairwise (fun a b => b.collected_at.data ≤ a.collected_at.data) := by
  simp only [get_patient_labs] at h
  split at h
  · exact absurd h (by simp)
  · split at h
    · injection h with h1 h2
      subst h2
      exact sortLabsDesc_pairwise _
    · split at h
      · exact absurd h (by simp)
      · injection h with h1 h2
        subst h2
        exact List.Pairwise.sublist (List.take_sublist _ _)
          (sortLabsDesc_pairwise _)

/-- C6 witness: the unfiltered history of patient 12345 comes back in
descending timestamp order. -/
theorem labs_sorted_most_recent_first_witness :
    (sortLabsDesc (applyNames none labs12345)).Pairwise
      (fun a b => b.collected_at.data ≤ a.collected_at.data) :=
  labs_sorted_most_recent_first "12345" none none "12345"
    (sortLabsDesc (applyNames none labs12345)) (by rfl)

/-- C7: whenever required keys are absent, the order validator fails with
400 and a detail naming every missing key, computed against the full
required set, in ascending code-point (alphabetical) order joined by
comma-space; a payload missing dose and route gets exactly
"Missing required fields: dose, route". -/
theorem order_missing_fields_message :
    (∀ (uuid : String) (p : Payload), missingFields p ≠ [] →
      create_medication_order uuid p =
        .err 400 ("Missing required fields: " ++
          String.intercalate ", " (missingFields p)) ∧
      (∀ f ∈ missingFields p, f ∈ required_fields ∧ containsKey p f = false) ∧
      (∀ f ∈ required_fields, containsKey p f = false →
        f ∈ missingFields p) ∧
      (missingFields p).Pairwise strBefore) ∧
    (∀ uuid, create_medication_order uuid missingDoseRoutePayload =
      .err 400 "Missing required fields: dose, route") := by
  constructor
  · intro uuid p h
    refine ⟨?_, ?_, ?_, sortStrings_pairwise _⟩
    · unfold create_medication_order
      rw [if_neg (fun hc => h (List.isEmpty_iff.1 hc))]
    · intro f hf
      have h1 := (sortStrings_perm
        (required_fields.filter (fun f => !containsKey p f))).mem_iff.1 hf
      have h2 := List.mem_filter.1 h1
      exact ⟨h2.1, by simpa using h2.2⟩
    · intro f hf hc
      exact (sortStrings_perm
        (required_fields.filter (fun f => !containsKey p f))).mem_iff.2
        (List.mem_filter.2 ⟨hf, by simp [hc]⟩)
  · intro uuid
    rfl

/-- C7 witness: the payload missing dose and route produces the documented
error with both fields listed alphabetically. -/
theorem order_missing_fields_message_witness :
    create_medication_order "3f2c" missingDoseRoutePayload =
      .err 400 ("Missing required fields: " ++
        String.intercalate ", " (missingFields missingDoseRoutePayload)) ∧
    (∀ f ∈ missingFields missingDoseRoutePayload,
      f ∈ required_fields ∧ containsKey missingDoseRoutePayload f = false) ∧
    (∀ f ∈ required_fields, containsKey missingDoseRoutePayload f = false →
      f ∈ missingFields missingDoseRoutePayload) ∧
    (missingFields missingDoseRoutePayload).Pairwise strBefore :=
  order_missing_fields_message.1 "3f2c" missingDoseRoutePayload (by decide)

/-- C10: a last_n query value that fails integer conversion is treated as
an absent last_n, so the query succeeds with the full filtered sorted
history; in particular last_n = "abc" on patient 12345 returns 200 with
all five observations. -/
theorem labs_unparsable_last_n_ignored :
    (∀ (pid : String) (ns : Option String) (raw : String),
      parsePyInt raw = none →
      get_patient_labs_raw _PATIENT_LABS pid ns (some raw) =
        get_patient_labs_raw _PATIENT_LABS pid ns none) ∧
    parsePyInt "abc" = none ∧
    get_patient_labs_raw _PATIENT_LABS "12345" none (some "abc") =
      .ok "12345" (sortLabsDesc (applyNames none labs12345)) := by
  refine ⟨?_, by decide, by rfl⟩
  intro pid ns raw h
  show get_patient_labs _PATIENT_LABS pid ns (parsePyInt raw) =
    get_patient_labs _PATIENT_LABS pid ns none
  rw [h]

/-- C10 witness: last_n = "abc" behaves as an absent last_n for
patient 12345. -/
theorem labs_unparsable_last_n_ignored_witness :
    get_patient_labs_raw _PATIENT_LABS "12345" none (some "abc") =
      get_patient_labs_raw _PATIENT_LABS "12345" none none :=
  labs_unparsable_last_n_ignored.1 "12345" none "abc" (by decide)

end EhrBackend
